import Mathlib

/-!
Verification development for the svox CUDA-extension binding layer
(`svox/csrc/svox.cpp`) and the octree / volume-rendering engine it exposes.

The binding layer is embedded shallowly: each wrapper function becomes a
small program of precondition checks followed by a kernel launch, executed
over an abstract kernel-side state.  The traversal / query / assign engine
and the ray compositor, whose kernel bodies live outside the binding
translation unit, are modelled from the specification (each such definition
says so in its doc comment), with exact rational respectively real
arithmetic in place of device floating point.
-/

namespace Svox

/-! ## Tensor descriptors and the check/launch execution model -/

/-- Element dtype of a tensor, as far as the binding layer inspects it. -/
inductive Dtype where
  | float16 : Dtype
  | float32 : Dtype
  | float64 : Dtype
  | int32 : Dtype
  | int64 : Dtype
  | uint8 : Dtype
deriving DecidableEq

/-- Mirrors `Tensor::is_floating_point()`. -/
def Dtype.isFloating : Dtype → Bool
  | .float16 => true
  | .float32 => true
  | .float64 => true
  | _ => false

/-- Descriptor of a tensor argument: the attributes the wrapper checks read
(`is_cuda`, `is_contiguous`, sizes, dtype).  Buffer contents are irrelevant
to the binding layer. -/
structure Tensor where
  is_cuda : Bool
  contig : Bool
  shape : List Nat
  dtype : Dtype
deriving DecidableEq

/-- Mirrors `Tensor::dim()` / `ndimension()`. -/
def Tensor.dim (t : Tensor) : Nat := t.shape.length

/-- Mirrors `Tensor::size(i)` for an in-range axis. -/
def Tensor.size (t : Tensor) (i : Nat) : Nat := t.shape.getD i 0

/-- One action of a wrapper body: a `TORCH_CHECK` (with its already
evaluated condition) or the launch of the underlying CUDA kernel. -/
inductive Action where
  | check : Bool → Action
  | launch : Action
deriving DecidableEq

/-- Kernel-side state observable by the caller: whether the kernel ran,
whether an output buffer was produced, whether any input buffer (data,
gradient, weight accumulator) was mutated.  The launch is the only action
that touches any of these. -/
structure KState where
  kernelLaunched : Bool
  outputWritten : Bool
  buffersMutated : Bool
deriving DecidableEq

/-- State before a wrapper call: nothing launched, produced or mutated. -/
def KState.init : KState := ⟨false, false, false⟩

/-- Executes a wrapper body.  A failing `TORCH_CHECK` throws, so execution
stops with the state as it stands; the kernel launch is the step that runs
device work (and may write outputs / mutate buffers).  Returns the final
state and whether the call completed without error. -/
def exec : List Action → KState → KState × Bool
  | [], s => (s, true)
  | Action.check b :: rest, s => if b then exec rest s else (s, false)
  | Action.launch :: rest, _ => exec rest ⟨true, true, true⟩

/-- Mirrors `CHECK_INPUT(x)`: `CHECK_CUDA(x); CHECK_CONTIGUOUS(x)`. -/
def checkInput (t : Tensor) : List Bool := [t.is_cuda, t.contig]

/-- Wrapper body abbreviation: the check conditions in source order,
then the single kernel launch. -/
def wrapperProg (cs : List Bool) : List Action :=
  cs.map Action.check ++ [Action.launch]

/-- Runs a wrapper body from the initial state. -/
def runOp (cs : List Bool) : KState × Bool := exec (wrapperProg cs) KState.init

/-! Check sequences of the eight wrappers, transcribed in source order.
Scalar parameters (step sizes, camera intrinsics, flags) take no part in
validation and are omitted; every tensor parameter of the wrapper appears,
checked or not. -/

/-- Checks of `query_vertical(data, child, indices, offset, scaling)`. -/
def query_vertical_checks (data child indices offset scaling : Tensor) :
    List Bool :=
  checkInput data ++ checkInput child ++ checkInput indices ++
  checkInput offset ++ checkInput scaling ++
  [indices.dim == 2, indices.dtype.isFloating]

/-- Checks of `query_vertical_backward(child, indices, grad_output, offset,
scaling)`; note `grad_output` is checked between `child` and `indices`. -/
def query_vertical_backward_checks
    (child indices grad_output offset scaling : Tensor) : List Bool :=
  checkInput child ++ checkInput grad_output ++ checkInput indices ++
  checkInput offset ++ checkInput scaling ++
  [indices.dim == 2, indices.dtype.isFloating]

/-- Checks of `assign_vertical(data, child, indices, values, offset,
scaling)`. -/
def assign_vertical_checks
    (data child indices values offset scaling : Tensor) : List Bool :=
  checkInput data ++ checkInput child ++ checkInput indices ++
  checkInput values ++ checkInput offset ++ checkInput scaling ++
  [indices.dim == 2, values.dim == 2,
   indices.dtype.isFloating, values.dtype.isFloating]

/-- Checks of `volume_render(data, child, extra_data, origins, dirs, vdirs,
offset, scaling, …, weight_accum)`; `weight_accum` is a tensor parameter of
the wrapper but appears in no check. -/
def volume_render_checks
    (data child extra_data origins dirs vdirs offset scaling
     weight_accum : Tensor) : List Bool :=
  checkInput data ++ checkInput child ++ checkInput extra_data ++
  checkInput origins ++ checkInput dirs ++ checkInput vdirs ++
  checkInput offset ++ checkInput scaling ++
  [dirs.size 0 == vdirs.size 0, dirs.size 0 == origins.size 0]

/-- Checks of `grid_weight_render(data, offset, scaling, c2w, …)`; the
`offset` tensor parameter appears in no check. -/
def grid_weight_render_checks (data offset scaling c2w : Tensor) :
    List Bool :=
  checkInput data ++ checkInput c2w ++ checkInput scaling ++
  [data.dim == 3, c2w.dim == 2, c2w.size 1 == 4]

/-- Checks of `volume_render_image(data, child, extra_data, offset, scaling,
c2w, …, weight_accum)`; the `offset` and `weight_accum` tensor parameters
appear in no check. -/
def volume_render_image_checks
    (data child extra_data offset scaling c2w weight_accum : Tensor) :
    List Bool :=
  checkInput data ++ checkInput child ++ checkInput extra_data ++
  checkInput c2w ++ checkInput scaling ++
  [c2w.dim == 2, c2w.size 1 == 4]

/-- Checks of `volume_render_backward(data, child, extra_data, grad_output,
origins, dirs, vdirs, offset, scaling, …)`. -/
def volume_render_backward_checks
    (data child extra_data grad_output origins dirs vdirs offset
     scaling : Tensor) : List Bool :=
  checkInput data ++ checkInput child ++ checkInput extra_data ++
  checkInput grad_output ++ checkInput origins ++ checkInput dirs ++
  checkInput vdirs ++ checkInput offset ++ checkInput scaling ++
  [dirs.size 0 == vdirs.size 0, dirs.size 0 == origins.size 0,
   grad_output.dim == 2]

/-- Checks of `volume_render_image_backward(data, child, extra_data,
grad_output, offset, scaling, c2w, …)`; the `offset` tensor parameter
appears in no check. -/
def volume_render_image_backward_checks
    (data child extra_data grad_output offset scaling c2w : Tensor) :
    List Bool :=
  checkInput data ++ checkInput child ++ checkInput extra_data ++
  checkInput grad_output ++ checkInput c2w ++ checkInput scaling ++
  [c2w.dim == 2, c2w.size 1 == 4, grad_output.dim == 3]

/-! ## The binding table (`PYBIND11_MODULE`) -/

/-- The eight wrapper functions defined in the translation unit. -/
inductive WrapperFn where
  | query_vertical : WrapperFn
  | query_vertical_backward : WrapperFn
  | assign_vertical : WrapperFn
  | volume_render : WrapperFn
  | volume_render_image : WrapperFn
  | volume_render_backward : WrapperFn
  | volume_render_image_backward : WrapperFn
  | grid_weight_render : WrapperFn
deriving DecidableEq

/-- Source-code name of each wrapper function. -/
def WrapperFn.name : WrapperFn → String
  | .query_vertical => "query_vertical"
  | .query_vertical_backward => "query_vertical_backward"
  | .assign_vertical => "assign_vertical"
  | .volume_render => "volume_render"
  | .volume_render_image => "volume_render_image"
  | .volume_render_backward => "volume_render_backward"
  | .volume_render_image_backward => "volume_render_image_backward"
  | .grid_weight_render => "grid_weight_render"

/-- The `m.def` table of `PYBIND11_MODULE`, in source order: exported
name paired with the wrapper it dispatches to. -/
def moduleDefs : List (String × WrapperFn) :=
  [("query_vertical", .query_vertical),
   ("query_vertical_backward", .query_vertical_backward),
   ("assign_vertical", .assign_vertical),
   ("volume_render", .volume_render),
   ("volume_render_image", .volume_render_image),
   ("volume_render_backward", .volume_render_backward),
   ("volume_render_image_backward", .volume_render_image_backward),
   ("grid_weight_render", .grid_weight_render)]

/-! ## Octree index and the vertical query / assign engine

Modelled from the spec: the kernel bodies (`_query_vertical_cuda`,
`_assign_vertical_cuda`) are declared but not defined in the binding
translation unit; traversal (spec 4.1) and query / assign (spec 4.2) are
transcribed from the specification, with exact rationals for device
floats.  The child sentinel "no child" is 0 and real children are at
least 1, as the spec assumes. -/

/-- Point in space, exact-rational model of a float3 coordinate. -/
structure V3 where
  x : ℚ
  y : ℚ
  z : ℚ
deriving DecidableEq

/-- Modelled from the spec: the octree as flat block-indexed arrays.
`N` is the branching factor; `child b i j k` is 0 for "no child" (leaf)
or the index of the descendant block; `data b i j k` is the K-channel
payload row of the cell. -/
structure Octree where
  N : ℕ
  child : ℕ → ℕ → ℕ → ℕ → ℕ
  data : ℕ → ℕ → ℕ → ℕ → List ℚ

/-- Modelled from the spec: integer cell coordinate `floor(q·N)` clamped
to `[0, N−1]` along one axis. -/
def cellIndex (n : ℕ) (q : ℚ) : ℕ :=
  min (max (Rat.floor (q * n)) 0).toNat (n - 1)

/-- Modelled from the spec: rescale of a coordinate into the child block's
local frame, `q ← q·N − floor(q·N)`. -/
def rescale (n : ℕ) (p : V3) : V3 :=
  ⟨p.x * n - Rat.floor (p.x * n), p.y * n - Rat.floor (p.y * n),
   p.z * n - Rat.floor (p.z * n)⟩

/-- Modelled from the spec: offset / scaling map a normalized coordinate
into the root block's local frame, componentwise `q ← q·scaling + offset`. -/
def transformPoint (offset scaling : V3) (p : V3) : V3 :=
  ⟨p.x * scaling.x + offset.x, p.y * scaling.y + offset.y,
   p.z * scaling.z + offset.z⟩

/-- Modelled from the spec: the traversal primitive (spec 4.1).  From block
`b`, resolve point `p` to a leaf cell `(block, i, j, k)`; `none` when the
maximum-depth bound `fuel` is exceeded (a fatal structural fault). -/
def traverse (t : Octree) : ℕ → ℕ → V3 → Option (ℕ × ℕ × ℕ × ℕ)
  | 0, _, _ => none
  | fuel + 1, b, p =>
    let i := cellIndex t.N p.x
    let j := cellIndex t.N p.y
    let k := cellIndex t.N p.z
    if t.child b i j k = 0 then some (b, i, j, k)
    else traverse t fuel (t.child b i j k) (rescale t.N p)

/-- Modelled from the spec: single-point query — resolve the leaf for one
row of `indices` and read its payload row.  `none` on traversal fault. -/
def query1 (t : Octree) (offset scaling : V3) (fuel : ℕ) (p : V3) :
    Option (List ℚ) :=
  (traverse t fuel 0 (transformPoint offset scaling p)).map
    fun c => t.data c.1 c.2.1 c.2.2.1 c.2.2.2

/-- Modelled from the spec: single-point assign — resolve the leaf for one
row of `indices` and overwrite (not accumulate) its payload row with `v`.
A traversal fault leaves the tree unchanged. -/
def assign1 (t : Octree) (offset scaling : V3) (fuel : ℕ) (p : V3)
    (v : List ℚ) : Octree :=
  match traverse t fuel 0 (transformPoint offset scaling p) with
  | none => t
  | some c =>
    { t with
      data := fun b i j k =>
        if b = c.1 ∧ i = c.2.1 ∧ j = c.2.2.1 ∧ k = c.2.2.2 then v
        else t.data b i j k }

/-- Modelled from the spec: batched `query_vertical` — one payload row per
input point. -/
def query_vertical (t : Octree) (offset scaling : V3) (fuel : ℕ)
    (ps : List V3) : List (Option (List ℚ)) :=
  ps.map (query1 t offset scaling fuel)

/-- Modelled from the spec: batched `assign_vertical` — each (point, row)
pair overwrites its resolved leaf's payload, in batch order. -/
def assign_vertical (t : Octree) (offset scaling : V3) (fuel : ℕ)
    (qvs : List (V3 × List ℚ)) : Octree :=
  qvs.foldl (fun acc pv => assign1 acc offset scaling fuel pv.1 pv.2) t

/-- Payload row stored at a resolved cell. -/
def dataAt (t : Octree) (c : ℕ × ℕ × ℕ × ℕ) : List ℚ :=
  t.data c.1 c.2.1 c.2.2.1 c.2.2.2

/-! ## Ray volume renderer

Modelled from the spec: the kernel body (`_volume_render_cuda`) is declared
but not defined in the binding translation unit; the front-to-back
compositing recursion (spec 4.3) is transcribed from the specification over
one color channel (channels composite independently), with exact reals for
device floats.  Each march sample is the `(σ, c)` pair decoded at the
sample point; the early-exit threshold is the small fixed constant 1/100. -/

/-- Modelled from the spec: one compositing step over state `(out, T)`:
`alpha = 1 − exp(−σ·step)`, `out += T·alpha·c`, `T *= (1−alpha)`. -/
noncomputable def compositeStep (stepSz : ℝ) (acc : ℝ × ℝ) (s : ℝ × ℝ) :
    ℝ × ℝ :=
  (acc.1 + acc.2 * (1 - Real.exp (-(s.1 * stepSz))) * s.2,
   acc.2 * Real.exp (-(s.1 * stepSz)))

/-- Modelled from the spec: compositing state `(out, T)` after marching a
sample list, from `out = 0`, `T = 1`. -/
noncomputable def marchState (stepSz : ℝ) (samples : List (ℝ × ℝ)) :
    ℝ × ℝ :=
  samples.foldl (compositeStep stepSz) (0, 1)

/-- Modelled from the spec: the per-ray march loop.  With the early-exit
flag set, marching stops once `T` falls below the threshold and the
remainder is treated as fully occluded (no background term); otherwise the
transmittance remaining after the last sample contributes `T·bg`. -/
noncomputable def renderGo (fast : Bool) (stepSz bg : ℝ) :
    List (ℝ × ℝ) → ℝ × ℝ → ℝ
  | [], acc => acc.1 + acc.2 * bg
  | s :: rest, acc =>
    if fast = true ∧ acc.2 < 1 / 100 then acc.1
    else renderGo fast stepSz bg rest (compositeStep stepSz acc s)

/-- Modelled from the spec: the output of `volume_render` for one ray, one
color channel, given the decoded `(σ, c)` sample sequence of its march. -/
noncomputable def volume_render_ray (fast : Bool) (stepSz bg : ℝ)
    (samples : List (ℝ × ℝ)) : ℝ :=
  renderGo fast stepSz bg samples (0, 1)

/-! ## Concrete tensor descriptors used to evaluate the model -/

/-- A CUDA-resident contiguous float32 tensor of the given shape. -/
def gpuF32 (sh : List Nat) : Tensor := ⟨true, true, sh, Dtype.float32⟩

/-- A CPU-resident contiguous float32 tensor of the given shape. -/
def cpuF32 (sh : List Nat) : Tensor := ⟨false, true, sh, Dtype.float32⟩

/-- A CUDA-resident contiguous int64 tensor of the given shape. -/
def gpuI64 (sh : List Nat) : Tensor := ⟨true, true, sh, Dtype.int64⟩

/-- The spec's concrete scenario: one block (M = 1), branching N = 2,
K = 1, payload 5 at cell (1,1,1) and 0 elsewhere, every cell a leaf. -/
def specTree : Octree :=
  Octree.mk 2 (fun _ _ _ _ => 0)
    (fun _ i j k => if i = 1 ∧ j = 1 ∧ k = 1 then [5] else [0])

/-! ## Generic wrapper-execution lemmas -/

theorem exec_checks_append (cs : List Bool) (p : List Action) (s : KState) :
    exec (cs.map Action.check ++ p) s =
      if cs.all (fun b => b) then exec p s else (s, false) := by
  induction cs with
  | nil => simp
  | cons b cs ih =>
    cases b <;> simp [exec, ih]

theorem runOp_eq (cs : List Bool) :
    runOp cs =
      if cs.all (fun b => b) then (⟨true, true, true⟩, true)
      else (KState.init, false) := by
  unfold runOp wrapperProg
  rw [exec_checks_append]
  split <;> rfl

/-- A wrapper call succeeds exactly when every check condition holds. -/
theorem runOp_snd (cs : List Bool) :
    (runOp cs).2 = cs.all (fun b => b) := by
  rw [runOp_eq]; split <;> simp_all

/-- The kernel runs exactly when every check condition holds. -/
theorem runOp_launched (cs : List Bool) :
    (runOp cs).1.kernelLaunched = cs.all (fun b => b) := by
  rw [runOp_eq]; split <;> simp_all [KState.init]

/-- A failing check leaves the kernel-side state untouched. -/
theorem runOp_fail_state (cs : List Bool) :
    (runOp cs).2 = false → (runOp cs).1 = KState.init := by
  rw [runOp_eq]; split <;> simp_all

/-! ## Claim theorems -/

/-- C4: `query_vertical` raises a precondition error (and performs no
kernel work) whenever its `indices` argument is not 2-dimensional or not of
a floating-point dtype; for every 2-dimensional floating-point,
CUDA-resident, contiguous `indices` (the remaining tensor arguments passing
their own CUDA/contiguity checks) it proceeds to the query kernel.  The
same rejection applies to `query_vertical_backward` and `assign_vertical`
for their `indices` argument. -/
theorem vertical_indices_validation :
    (∀ data child indices offset scaling : Tensor,
        indices.dim ≠ 2 ∨ indices.dtype.isFloating = false →
        (runOp (query_vertical_checks data child indices offset
          scaling)).2 = false ∧
        (runOp (query_vertical_checks data child indices offset
          scaling)).1.kernelLaunched = false) ∧
    (∀ child indices grad_output offset scaling : Tensor,
        indices.dim ≠ 2 ∨ indices.dtype.isFloating = false →
        (runOp (query_vertical_backward_checks child indices grad_output
          offset scaling)).2 = false) ∧
    (∀ data child indices values offset scaling : Tensor,
        indices.dim ≠ 2 ∨ indices.dtype.isFloating = false →
        (runOp (assign_vertical_checks data child indices values offset
          scaling)).2 = false) ∧
    (∀ data child indices offset scaling : Tensor,
        indices.dim = 2 → indices.dtype.isFloating = true →
        indices.is_cuda = true → indices.contig = true →
        data.is_cuda = true → data.contig = true →
        child.is_cuda = true → child.contig = true →
        offset.is_cuda = true → offset.contig = true →
        scaling.is_cuda = true → scaling.contig = true →
        (runOp (query_vertical_checks data child indices offset
          scaling)).2 = true ∧
        (runOp (query_vertical_checks data child indices offset
          scaling)).1.kernelLaunched = true) := by
  refine ⟨?_, ?_, ?_, ?_⟩
  · intro data child indices offset scaling h
    rw [runOp_snd, runOp_launched]
    rcases h with h | h
    · have hx : (indices.dim == 2) = false := by simpa using h
      simp [query_vertical_checks, checkInput, hx]
    · simp [query_vertical_checks, checkInput, h]
  · intro child indices grad_output offset scaling h
    rw [runOp_snd]
    rcases h with h | h
    · have hx : (indices.dim == 2) = false := by simpa using h
      simp [query_vertical_backward_checks, checkInput, hx]
    · simp [query_vertical_backward_checks, checkInput, h]
  · intro data child indices values offset scaling h
    rw [runOp_snd]
    rcases h with h | h
    · have hx : (indices.dim == 2) = false := by simpa using h
      simp [assign_vertical_checks, checkInput, hx]
    · simp [assign_vertical_checks, checkInput, h]
  · intro data child indices offset scaling h1 h2 h3 h4 h5 h6 h7 h8 h9 h10
      h11 h12
    rw [runOp_snd, runOp_launched]
    simp [query_vertical_checks, checkInput, h1, h2, h3, h4, h5, h6, h7,
      h8, h9, h10, h11, h12]

/-- Witness for C4 at concrete inputs: a 3-dimensional `indices` is
rejected by `query_vertical`, an integer `indices` by
`query_vertical_backward`, a 1-dimensional `indices` by `assign_vertical`,
and a valid 2-dimensional float `indices` reaches the kernel. -/
theorem vertical_indices_validation_witness :
    ((runOp (query_vertical_checks (gpuF32 [1, 2, 2, 2, 1])
        (gpuF32 [1, 2, 2, 2]) (gpuF32 [5, 3, 2]) (gpuF32 [3])
        (gpuF32 [3]))).2 = false ∧
      (runOp (query_vertical_checks (gpuF32 [1, 2, 2, 2, 1])
        (gpuF32 [1, 2, 2, 2]) (gpuF32 [5, 3, 2]) (gpuF32 [3])
        (gpuF32 [3]))).1.kernelLaunched = false) ∧
    (runOp (query_vertical_backward_checks (gpuF32 [1, 2, 2, 2])
      (gpuI64 [5, 3]) (gpuF32 [5, 1]) (gpuF32 [3])
      (gpuF32 [3]))).2 = false ∧
    (runOp (assign_vertical_checks (gpuF32 [1, 2, 2, 2, 1])
      (gpuF32 [1, 2, 2, 2]) (gpuF32 [5]) (gpuF32 [5, 1]) (gpuF32 [3])
      (gpuF32 [3]))).2 = false ∧
    ((runOp (query_vertical_checks (gpuF32 [1, 2, 2, 2, 1])
        (gpuF32 [1, 2, 2, 2]) (gpuF32 [5, 3]) (gpuF32 [3])
        (gpuF32 [3]))).2 = true ∧
      (runOp (query_vertical_checks (gpuF32 [1, 2, 2, 2, 1])
        (gpuF32 [1, 2, 2, 2]) (gpuF32 [5, 3]) (gpuF32 [3])
        (gpuF32 [3]))).1.kernelLaunched = true) :=
  ⟨vertical_indices_validation.1 _ _ _ _ _ (Or.inl (by decide)),
   vertical_indices_validation.2.1 _ _ _ _ _ (Or.inr (by decide)),
   vertical_indices_validation.2.2.1 _ _ _ _ _ _ (Or.inl (by decide)),
   vertical_indices_validation.2.2.2 _ _ _ _ _ (by decide) (by decide)
     (by decide) (by decide) (by decide) (by decide) (by decide)
     (by decide) (by decide) (by decide) (by decide) (by decide)⟩

/-- C5: for every exposed operation, the precondition checks execute
before the kernel launch, so a failing check surfaces an error with no
partial effect: the kernel never runs, no output is produced, and no
buffer is mutated (the final kernel-side state is the initial one). -/
theorem checks_precede_launch_no_partial_effect :
    (∀ data child indices offset scaling : Tensor,
        (runOp (query_vertical_checks data child indices offset
          scaling)).2 = false →
        (runOp (query_vertical_checks data child indices offset
          scaling)).1 = KState.init) ∧
    (∀ child indices grad_output offset scaling : Tensor,
        (runOp (query_vertical_backward_checks child indices grad_output
          offset scaling)).2 = false →
        (runOp (query_vertical_backward_checks child indices grad_output
          offset scaling)).1 = KState.init) ∧
    (∀ data child indices values offset scaling : Tensor,
        (runOp (assign_vertical_checks data child indices values offset
          scaling)).2 = false →
        (runOp (assign_vertical_checks data child indices values offset
          scaling)).1 = KState.init) ∧
    (∀ data child extra_data origins dirs vdirs offset scaling
        weight_accum : Tensor,
        (runOp (volume_render_checks data child extra_data origins dirs
          vdirs offset scaling weight_accum)).2 = false →
        (runOp (volume_render_checks data child extra_data origins dirs
          vdirs offset scaling weight_accum)).1 = KState.init) ∧
    (∀ data offset scaling c2w : Tensor,
        (runOp (grid_weight_render_checks data offset scaling
          c2w)).2 = false →
        (runOp (grid_weight_render_checks data offset scaling
          c2w)).1 = KState.init) ∧
    (∀ data child extra_data offset scaling c2w weight_accum : Tensor,
        (runOp (volume_render_image_checks data child extra_data offset
          scaling c2w weight_accum)).2 = false →
        (runOp (volume_render_image_checks data child extra_data offset
          scaling c2w weight_accum)).1 = KState.init) ∧
    (∀ data child extra_data grad_output origins dirs vdirs offset
        scaling : Tensor,
        (runOp (volume_render_backward_checks data child extra_data
          grad_output origins dirs vdirs offset scaling)).2 = false →
        (runOp (volume_render_backward_checks data child extra_data
          grad_output origins dirs vdirs offset scaling)).1 =
          KState.init) ∧
    (∀ data child extra_data grad_output offset scaling c2w : Tensor,
        (runOp (volume_render_image_backward_checks data child extra_data
          grad_output offset scaling c2w)).2 = false →
        (runOp (volume_render_image_backward_checks data child extra_data
          grad_output offset scaling c2w)).1 = KState.init) :=
  ⟨fun _ _ _ _ _ => runOp_fail_state _,
   fun _ _ _ _ _ => runOp_fail_state _,
   fun _ _ _ _ _ _ => runOp_fail_state _,
   fun _ _ _ _ _ _ _ _ _ => runOp_fail_state _,
   fun _ _ _ _ => runOp_fail_state _,
   fun _ _ _ _ _ _ _ => runOp_fail_state _,
   fun _ _ _ _ _ _ _ _ _ => runOp_fail_state _,
   fun _ _ _ _ _ _ _ => runOp_fail_state _⟩

/-- Witness for C5 at concrete inputs: a CPU-resident tensor makes each of
the eight wrappers fail its checks, and the kernel-side state stays
initial. -/
theorem checks_precede_launch_no_partial_effect_witness :
    (runOp (query_vertical_checks (cpuF32 [1, 2, 2, 2, 1])
      (gpuF32 [1, 2, 2, 2]) (gpuF32 [5, 3]) (gpuF32 [3])
      (gpuF32 [3]))).1 = KState.init ∧
    (runOp (query_vertical_backward_checks (cpuF32 [1, 2, 2, 2])
      (gpuF32 [5, 3]) (gpuF32 [5, 1]) (gpuF32 [3])
      (gpuF32 [3]))).1 = KState.init ∧
    (runOp (assign_vertical_checks (cpuF32 [1, 2, 2, 2, 1])
      (gpuF32 [1, 2, 2, 2]) (gpuF32 [5, 3]) (gpuF32 [5, 1]) (gpuF32 [3])
      (gpuF32 [3]))).1 = KState.init ∧
    (runOp (volume_render_checks (cpuF32 [1, 2, 2, 2, 4])
      (gpuF32 [1, 2, 2, 2]) (gpuF32 [1]) (gpuF32 [6, 3]) (gpuF32 [6, 3])
      (gpuF32 [6, 3]) (gpuF32 [3]) (gpuF32 [3])
      (gpuF32 [1, 2, 2, 2]))).1 = KState.init ∧
    (runOp (grid_weight_render_checks (cpuF32 [2, 2, 2]) (gpuF32 [3])
      (gpuF32 [3]) (gpuF32 [3, 4]))).1 = KState.init ∧
    (runOp (volume_render_image_checks (cpuF32 [1, 2, 2, 2, 4])
      (gpuF32 [1, 2, 2, 2]) (gpuF32 [1]) (gpuF32 [3]) (gpuF32 [3])
      (gpuF32 [3, 4]) (gpuF32 [1, 2, 2, 2]))).1 = KState.init ∧
    (runOp (volume_render_backward_checks (cpuF32 [1, 2, 2, 2, 4])
      (gpuF32 [1, 2, 2, 2]) (gpuF32 [1]) (gpuF32 [6, 3]) (gpuF32 [6, 3])
      (gpuF32 [6, 3]) (gpuF32 [6, 3]) (gpuF32 [3])
      (gpuF32 [3]))).1 = KState.init ∧
    (runOp (volume_render_image_backward_checks (cpuF32 [1, 2, 2, 2, 4])
      (gpuF32 [1, 2, 2, 2]) (gpuF32 [1]) (gpuF32 [4, 4, 3]) (gpuF32 [3])
      (gpuF32 [3]) (gpuF32 [3, 4]))).1 = KState.init :=
  ⟨checks_precede_launch_no_partial_effect.1 _ _ _ _ _ (by decide),
   checks_precede_launch_no_partial_effect.2.1 _ _ _ _ _ (by decide),
   checks_precede_launch_no_partial_effect.2.2.1 _ _ _ _ _ _ (by decide),
   checks_precede_launch_no_partial_effect.2.2.2.1 _ _ _ _ _ _ _ _ _
     (by decide),
   checks_precede_launch_no_partial_effect.2.2.2.2.1 _ _ _ _ (by decide),
   checks_precede_launch_no_partial_effect.2.2.2.2.2.1 _ _ _ _ _ _ _
     (by decide),
   checks_precede_launch_no_partial_effect.2.2.2.2.2.2.1 _ _ _ _ _ _ _ _ _
     (by decide),
   checks_precede_launch_no_partial_effect.2.2.2.2.2.2.2 _ _ _ _ _ _ _
     (by decide)⟩

/-- C7: `volume_render` and `volume_render_backward` raise a precondition
error unless `origins`, `dirs` and `vdirs` agree on their first (batch)
dimension; when the three batch sizes agree (and the remaining checks
hold) the call proceeds. -/
theorem ray_batch_size_agreement :
    (∀ data child extra_data origins dirs vdirs offset scaling
        weight_accum : Tensor,
        ¬(origins.size 0 = dirs.size 0 ∧ dirs.size 0 = vdirs.size 0) →
        (runOp (volume_render_checks data child extra_data origins dirs
          vdirs offset scaling weight_accum)).2 = false) ∧
    (∀ data child extra_data origins dirs vdirs offset scaling
        weight_accum : Tensor,
        origins.size 0 = dirs.size 0 → dirs.size 0 = vdirs.size 0 →
        data.is_cuda = true → data.contig = true →
        child.is_cuda = true → child.contig = true →
        extra_data.is_cuda = true → extra_data.contig = true →
        origins.is_cuda = true → origins.contig = true →
        dirs.is_cuda = true → dirs.contig = true →
        vdirs.is_cuda = true → vdirs.contig = true →
        offset.is_cuda = true → offset.contig = true →
        scaling.is_cuda = true → scaling.contig = true →
        (runOp (volume_render_checks data child extra_data origins dirs
          vdirs offset scaling weight_accum)).2 = true) ∧
    (∀ data child extra_data grad_output origins dirs vdirs offset
        scaling : Tensor,
        ¬(origins.size 0 = dirs.size 0 ∧ dirs.size 0 = vdirs.size 0) →
        (runOp (volume_render_backward_checks data child extra_data
          grad_output origins dirs vdirs offset scaling)).2 = false) ∧
    (∀ data child extra_data grad_output origins dirs vdirs offset
        scaling : Tensor,
        origins.size 0 = dirs.size 0 → dirs.size 0 = vdirs.size 0 →
        grad_output.dim = 2 →
        data.is_cuda = true → data.contig = true →
        child.is_cuda = true → child.contig = true →
        extra_data.is_cuda = true → extra_data.contig = true →
        grad_output.is_cuda = true → grad_output.contig = true →
        origins.is_cuda = true → origins.contig = true →
        dirs.is_cuda = true → dirs.contig = true →
        vdirs.is_cuda = true → vdirs.contig = true →
        offset.is_cuda = true → offset.contig = true →
        scaling.is_cuda = true → scaling.contig = true →
        (runOp (volume_render_backward_checks data child extra_data
          grad_output origins dirs vdirs offset scaling)).2 = true) := by
  refine ⟨?_, ?_, ?_, ?_⟩
  · intro data child extra_data origins dirs vdirs offset scaling
      weight_accum h
    rw [runOp_snd]
    rcases not_and_or.mp h with h | h
    · have hx : (dirs.size 0 == origins.size 0) = false :=
        beq_eq_false_iff_ne.mpr fun he => h he.symm
      simp [volume_render_checks, checkInput, hx]
    · have hx : (dirs.size 0 == vdirs.size 0) = false :=
        beq_eq_false_iff_ne.mpr h
      simp [volume_render_checks, checkInput, hx]
  · intro data child extra_data origins dirs vdirs offset scaling
      weight_accum h1 h2 h3 h4 h5 h6 h7 h8 h9 h10 h11 h12 h13 h14 h15 h16
      h17 h18
    rw [runOp_snd]
    simp [volume_render_checks, checkInput, h1, h2, h3, h4, h5, h6, h7,
      h8, h9, h10, h11, h12, h13, h14, h15, h16, h17, h18]
  · intro data child extra_data grad_output origins dirs vdirs offset
      scaling h
    rw [runOp_snd]
    rcases not_and_or.mp h with h | h
    · have hx : (dirs.size 0 == origins.size 0) = false :=
        beq_eq_false_iff_ne.mpr fun he => h he.symm
      simp [volume_render_backward_checks, checkInput, hx]
    · have hx : (dirs.size 0 == vdirs.size 0) = false :=
        beq_eq_false_iff_ne.mpr h
      simp [volume_render_backward_checks, checkInput, hx]
  · intro data child extra_data grad_output origins dirs vdirs offset
      scaling h1 h2 h3 h4 h5 h6 h7 h8 h9 h10 h11 h12 h13 h14 h15 h16 h17
      h18 h19 h20 h21
    rw [runOp_snd]
    simp [volume_render_backward_checks, checkInput, h1, h2, h3, h4, h5,
      h6, h7, h8, h9, h10, h11, h12, h13, h14, h15, h16, h17, h18, h19,
      h20, h21]

/-- Witness for C7 at concrete inputs: a vdirs batch of 5 against
origins/dirs batches of 6 is rejected by both renderers, and agreeing
batches of 6 pass. -/
theorem ray_batch_size_agreement_witness :
    (runOp (volume_render_checks (gpuF32 [1, 2, 2, 2, 4])
      (gpuF32 [1, 2, 2, 2]) (gpuF32 [1]) (gpuF32 [6, 3]) (gpuF32 [6, 3])
      (gpuF32 [5, 3]) (gpuF32 [3]) (gpuF32 [3])
      (gpuF32 [1, 2, 2, 2]))).2 = false ∧
    (runOp (volume_render_checks (gpuF32 [1, 2, 2, 2, 4])
      (gpuF32 [1, 2, 2, 2]) (gpuF32 [1]) (gpuF32 [6, 3]) (gpuF32 [6, 3])
      (gpuF32 [6, 3]) (gpuF32 [3]) (gpuF32 [3])
      (gpuF32 [1, 2, 2, 2]))).2 = true ∧
    (runOp (volume_render_backward_checks (gpuF32 [1, 2, 2, 2, 4])
      (gpuF32 [1, 2, 2, 2]) (gpuF32 [1]) (gpuF32 [6, 4]) (gpuF32 [6, 3])
      (gpuF32 [6, 3]) (gpuF32 [5, 3]) (gpuF32 [3])
      (gpuF32 [3]))).2 = false ∧
    (runOp (volume_render_backward_checks (gpuF32 [1, 2, 2, 2, 4])
      (gpuF32 [1, 2, 2, 2]) (gpuF32 [1]) (gpuF32 [6, 4]) (gpuF32 [6, 3])
      (gpuF32 [6, 3]) (gpuF32 [6, 3]) (gpuF32 [3])
      (gpuF32 [3]))).2 = true :=
  ⟨ray_batch_size_agreement.1 _ _ _ _ _ _ _ _ _ (by decide),
   ray_batch_size_agreement.2.1 _ _ _ _ _ _ _ _ _ (by decide) (by decide)
     (by decide) (by decide) (by decide) (by decide) (by decide)
     (by decide) (by decide) (by decide) (by decide) (by decide)
     (by decide) (by decide) (by decide) (by decide) (by decide)
     (by decide),
   ray_batch_size_agreement.2.2.1 _ _ _ _ _ _ _ _ _ (by decide),
   ray_batch_size_agreement.2.2.2 _ _ _ _ _ _ _ _ _ (by decide)
     (by decide) (by decide) (by decide) (by decide) (by decide)
     (by decide) (by decide) (by decide) (by decide) (by decide)
     (by decide) (by decide) (by decide) (by decide) (by decide)
     (by decide) (by decide) (by decide) (by decide) (by decide)⟩

/-- C9: `query_vertical_backward` constrains `grad_output` only to be
CUDA-resident and contiguous — any rank and any dtype proceed to the
kernel (with valid remaining arguments) — whereas `volume_render_backward`
rejects any `grad_output` that is not exactly 2-dimensional and
`volume_render_image_backward` any that is not exactly 3-dimensional. -/
theorem grad_output_rank_constraints :
    (∀ child indices grad_output offset scaling : Tensor,
        grad_output.is_cuda = true → grad_output.contig = true →
        child.is_cuda = true → child.contig = true →
        indices.is_cuda = true → indices.contig = true →
        indices.dim = 2 → indices.dtype.isFloating = true →
        offset.is_cuda = true → offset.contig = true →
        scaling.is_cuda = true → scaling.contig = true →
        (runOp (query_vertical_backward_checks child indices grad_output
          offset scaling)).2 = true) ∧
    (∀ data child extra_data grad_output origins dirs vdirs offset
        scaling : Tensor,
        grad_output.dim ≠ 2 →
        (runOp (volume_render_backward_checks data child extra_data
          grad_output origins dirs vdirs offset scaling)).2 = false) ∧
    (∀ data child extra_data grad_output offset scaling c2w : Tensor,
        grad_output.dim ≠ 3 →
        (runOp (volume_render_image_backward_checks data child extra_data
          grad_output offset scaling c2w)).2 = false) := by
  refine ⟨?_, ?_, ?_⟩
  · intro child indices grad_output offset scaling h1 h2 h3 h4 h5 h6 h7
      h8 h9 h10 h11 h12
    rw [runOp_snd]
    simp [query_vertical_backward_checks, checkInput, h1, h2, h3, h4, h5,
      h6, h7, h8, h9, h10, h11, h12]
  · intro data child extra_data grad_output origins dirs vdirs offset
      scaling h
    have hx : (grad_output.dim == 2) = false := by simpa using h
    rw [runOp_snd]
    simp [volume_render_backward_checks, checkInput, hx]
  · intro data child extra_data grad_output offset scaling c2w h
    have hx : (grad_output.dim == 3) = false := by simpa using h
    rw [runOp_snd]
    simp [volume_render_image_backward_checks, checkInput, hx]

/-- Witness for C9 at concrete inputs: a 3-dimensional int64 `grad_output`
is accepted by `query_vertical_backward`, while a 3-dimensional
`grad_output` is rejected by `volume_render_backward` and a 2-dimensional
one by `volume_render_image_backward`. -/
theorem grad_output_rank_constraints_witness :
    (runOp (query_vertical_backward_checks (gpuF32 [1, 2, 2, 2])
      (gpuF32 [5, 3]) (gpuI64 [2, 3, 4]) (gpuF32 [3])
      (gpuF32 [3]))).2 = true ∧
    (runOp (volume_render_backward_checks (gpuF32 [1, 2, 2, 2, 4])
      (gpuF32 [1, 2, 2, 2]) (gpuF32 [1]) (gpuF32 [6, 4, 1])
      (gpuF32 [6, 3]) (gpuF32 [6, 3]) (gpuF32 [6, 3]) (gpuF32 [3])
      (gpuF32 [3]))).2 = false ∧
    (runOp (volume_render_image_backward_checks (gpuF32 [1, 2, 2, 2, 4])
      (gpuF32 [1, 2, 2, 2]) (gpuF32 [1]) (gpuF32 [4, 4]) (gpuF32 [3])
      (gpuF32 [3]) (gpuF32 [3, 4]))).2 = false :=
  ⟨grad_output_rank_constraints.1 _ _ _ _ _ (by decide) (by decide)
     (by decide) (by decide) (by decide) (by decide) (by decide)
     (by decide) (by decide) (by decide) (by decide) (by decide),
   grad_output_rank_constraints.2.1 _ _ _ _ _ _ _ _ _ (by decide),
   grad_output_rank_constraints.2.2 _ _ _ _ _ _ _ (by decide)⟩

/-- C10: each camera-driven operation (`volume_render_image`,
`volume_render_image_backward`, `grid_weight_render`) raises a
precondition error unless `c2w` is exactly 2-dimensional with second
dimension 4; a `c2w` satisfying both passes this check, so with the
remaining checks valid the call proceeds. -/
theorem c2w_shape_validation :
    (∀ data child extra_data offset scaling c2w weight_accum : Tensor,
        ¬(c2w.dim = 2 ∧ c2w.size 1 = 4) →
        (runOp (volume_render_image_checks data child extra_data offset
          scaling c2w weight_accum)).2 = false) ∧
    (∀ data child extra_data offset scaling c2w weight_accum : Tensor,
        c2w.dim = 2 → c2w.size 1 = 4 →
        data.is_cuda = true → data.contig = true →
        child.is_cuda = true → child.contig = true →
        extra_data.is_cuda = true → extra_data.contig = true →
        c2w.is_cuda = true → c2w.contig = true →
        scaling.is_cuda = true → scaling.contig = true →
        (runOp (volume_render_image_checks data child extra_data offset
          scaling c2w weight_accum)).2 = true) ∧
    (∀ data child extra_data grad_output offset scaling c2w : Tensor,
        ¬(c2w.dim = 2 ∧ c2w.size 1 = 4) →
        (runOp (volume_render_image_backward_checks data child extra_data
          grad_output offset scaling c2w)).2 = false) ∧
    (∀ data child extra_data grad_output offset scaling c2w : Tensor,
        c2w.dim = 2 → c2w.size 1 = 4 → grad_output.dim = 3 →
        data.is_cuda = true → data.contig = true →
        child.is_cuda = true → child.contig = true →
        extra_data.is_cuda = true → extra_data.contig = true →
        grad_output.is_cuda = true → grad_output.contig = true →
        c2w.is_cuda = true → c2w.contig = true →
        scaling.is_cuda = true → scaling.contig = true →
        (runOp (volume_render_image_backward_checks data child extra_data
          grad_output offset scaling c2w)).2 = true) ∧
    (∀ data offset scaling c2w : Tensor,
        ¬(c2w.dim = 2 ∧ c2w.size 1 = 4) →
        (runOp (grid_weight_render_checks data offset scaling
          c2w)).2 = false) ∧
    (∀ data offset scaling c2w : Tensor,
        c2w.dim = 2 → c2w.size 1 = 4 → data.dim = 3 →
        data.is_cuda = true → data.contig = true →
        c2w.is_cuda = true → c2w.contig = true →
        scaling.is_cuda = true → scaling.contig = true →
        (runOp (grid_weight_render_checks data offset scaling
          c2w)).2 = true) := by
  refine ⟨?_, ?_, ?_, ?_, ?_, ?_⟩
  · intro data child extra_data offset scaling c2w weight_accum h
    rw [runOp_snd]
    rcases not_and_or.mp h with h | h
    · have hx : (c2w.dim == 2) = false := by simpa using h
      simp [volume_render_image_checks, checkInput, hx]
    · have hx : (c2w.size 1 == 4) = false := by simpa using h
      simp [volume_render_image_checks, checkInput, hx]
  · intro data child extra_data offset scaling c2w weight_accum h1 h2 h3
      h4 h5 h6 h7 h8 h9 h10 h11 h12
    rw [runOp_snd]
    simp [volume_render_image_checks, checkInput, h1, h2, h3, h4, h5, h6,
      h7, h8, h9, h10, h11, h12]
  · intro data child extra_data grad_output offset scaling c2w h
    rw [runOp_snd]
    rcases not_and_or.mp h with h | h
    · have hx : (c2w.dim == 2) = false := by simpa using h
      simp [volume_render_image_backward_checks, checkInput, hx]
    · have hx : (c2w.size 1 == 4) = false := by simpa using h
      simp [volume_render_image_backward_checks, checkInput, hx]
  · intro data child extra_data grad_output offset scaling c2w h1 h2 h3
      h4 h5 h6 h7 h8 h9 h10 h11 h12 h13 h14 h15
    rw [runOp_snd]
    simp [volume_render_image_backward_checks, checkInput, h1, h2, h3,
      h4, h5, h6, h7, h8, h9, h10, h11, h12, h13, h14, h15]
  · intro data offset scaling c2w h
    rw [runOp_snd]
    rcases not_and_or.mp h with h | h
    · have hx : (c2w.dim == 2) = false := by simpa using h
      simp [grid_weight_render_checks, checkInput, hx]
    · have hx : (c2w.size 1 == 4) = false := by simpa using h
      simp [grid_weight_render_checks, checkInput, hx]
  · intro data offset scaling c2w h1 h2 h3 h4 h5 h6 h7 h8 h9
    rw [runOp_snd]
    simp [grid_weight_render_checks, checkInput, h1, h2, h3, h4, h5, h6,
      h7, h8, h9]

/-- Witness for C10 at concrete inputs: a 3×3 `c2w` is rejected by all
three camera-driven operations, and a 3×4 one passes. -/
theorem c2w_shape_validation_witness :
    (runOp (volume_render_image_checks (gpuF32 [1, 2, 2, 2, 4])
      (gpuF32 [1, 2, 2, 2]) (gpuF32 [1]) (gpuF32 [3]) (gpuF32 [3])
      (gpuF32 [3, 3]) (gpuF32 [1, 2, 2, 2]))).2 = false ∧
    (runOp (volume_render_image_checks (gpuF32 [1, 2, 2, 2, 4])
      (gpuF32 [1, 2, 2, 2]) (gpuF32 [1]) (gpuF32 [3]) (gpuF32 [3])
      (gpuF32 [3, 4]) (gpuF32 [1, 2, 2, 2]))).2 = true ∧
    (runOp (volume_render_image_backward_checks (gpuF32 [1, 2, 2, 2, 4])
      (gpuF32 [1, 2, 2, 2]) (gpuF32 [1]) (gpuF32 [4, 4, 3]) (gpuF32 [3])
      (gpuF32 [3]) (gpuF32 [3, 3]))).2 = false ∧
    (runOp (volume_render_image_backward_checks (gpuF32 [1, 2, 2, 2, 4])
      (gpuF32 [1, 2, 2, 2]) (gpuF32 [1]) (gpuF32 [4, 4, 3]) (gpuF32 [3])
      (gpuF32 [3]) (gpuF32 [3, 4]))).2 = true ∧
    (runOp (grid_weight_render_checks (gpuF32 [2, 2, 2]) (gpuF32 [3])
      (gpuF32 [3]) (gpuF32 [3, 3]))).2 = false ∧
    (runOp (grid_weight_render_checks (gpuF32 [2, 2, 2]) (gpuF32 [3])
      (gpuF32 [3]) (gpuF32 [3, 4]))).2 = true :=
  ⟨c2w_shape_validation.1 _ _ _ _ _ _ _ (by decide),
   c2w_shape_validation.2.1 _ _ _ _ _ _ _ (by decide) (by decide)
     (by decide) (by decide) (by decide) (by decide) (by decide)
     (by decide) (by decide) (by decide) (by decide) (by decide),
   c2w_shape_validation.2.2.1 _ _ _ _ _ _ _ (by decide),
   c2w_shape_validation.2.2.2.1 _ _ _ _ _ _ _ (by decide) (by decide)
     (by decide) (by decide) (by decide) (by decide) (by decide)
     (by decide) (by decide) (by decide) (by decide) (by decide)
     (by decide) (by decide) (by decide),
   c2w_shape_validation.2.2.2.2.1 _ _ _ _ (by decide),
   c2w_shape_validation.2.2.2.2.2 _ _ _ _ (by decide) (by decide)
     (by decide) (by decide) (by decide) (by decide) (by decide)
     (by decide) (by decide)⟩

/-- C8: the binding module exposes exactly the eight operation names of
the external interface, in source order, and each exported name
dispatches to the wrapper function of the same name. -/
theorem binding_exports_exact :
    moduleDefs.map Prod.fst =
      ["query_vertical", "query_vertical_backward", "assign_vertical",
       "volume_render", "volume_render_image", "volume_render_backward",
       "volume_render_image_backward", "grid_weight_render"] ∧
    ∀ e ∈ moduleDefs, e.1 = e.2.name := by
  refine ⟨rfl, ?_⟩
  intro e he
  simp only [moduleDefs, List.mem_cons, List.not_mem_nil, or_false]
    at he
  rcases he with h | h | h | h | h | h | h | h <;> subst h <;> rfl

/-- Witness for C8 at a concrete entry: the `volume_render` export is in
the binding table and dispatches to the wrapper of the same name. -/
theorem binding_exports_exact_witness :
    ("volume_render", WrapperFn.volume_render).1 =
      ("volume_render", WrapperFn.volume_render).2.name :=
  binding_exports_exact.2 ("volume_render", WrapperFn.volume_render)
    (by simp [moduleDefs])

/-- C6 counterexample: `grid_weight_render` consumes an `offset` tensor
that is never validated — with a CPU-resident, non-contiguous `offset`
every check still passes and the kernel launches, refuting the claim that
every consumed tensor argument is validated for CUDA residency and
contiguity before work launches. -/
theorem unchecked_offset_counterexample :
    (Tensor.mk false false [3] Dtype.float32).is_cuda = false ∧
    (Tensor.mk false false [3] Dtype.float32).contig = false ∧
    (runOp (grid_weight_render_checks (gpuF32 [2, 2, 2])
      (Tensor.mk false false [3] Dtype.float32) (gpuF32 [3])
      (gpuF32 [3, 4]))).2 = true ∧
    (runOp (grid_weight_render_checks (gpuF32 [2, 2, 2])
      (Tensor.mk false false [3] Dtype.float32) (gpuF32 [3])
      (gpuF32 [3, 4]))).1.kernelLaunched = true := by
  decide

/-- C6 amended: each operation enforces CUDA residency and contiguity of
its checked tensors before launching, but the checked set excludes
`weight_accum` in `volume_render` and `volume_render_image` and excludes
`offset` in `volume_render_image`, `volume_render_image_backward` and
`grid_weight_render`: those arguments never influence whether the kernel
launches. -/
theorem validated_tensor_sets :
    (∀ data child extra_data origins dirs vdirs offset scaling
        weight_accum : Tensor,
        (runOp (volume_render_checks data child extra_data origins dirs
          vdirs offset scaling weight_accum)).2 = true →
        (data.is_cuda = true ∧ data.contig = true) ∧
        (child.is_cuda = true ∧ child.contig = true) ∧
        (extra_data.is_cuda = true ∧ extra_data.contig = true) ∧
        (origins.is_cuda = true ∧ origins.contig = true) ∧
        (dirs.is_cuda = true ∧ dirs.contig = true) ∧
        (vdirs.is_cuda = true ∧ vdirs.contig = true) ∧
        (offset.is_cuda = true ∧ offset.contig = true) ∧
        (scaling.is_cuda = true ∧ scaling.contig = true)) ∧
    (∀ data child extra_data origins dirs vdirs offset scaling
        weight_accum weight_accum' : Tensor,
        volume_render_checks data child extra_data origins dirs vdirs
          offset scaling weight_accum =
        volume_render_checks data child extra_data origins dirs vdirs
          offset scaling weight_accum') ∧
    (∀ data offset scaling c2w : Tensor,
        (runOp (grid_weight_render_checks data offset scaling
          c2w)).2 = true →
        (data.is_cuda = true ∧ data.contig = true) ∧
        (c2w.is_cuda = true ∧ c2w.contig = true) ∧
        (scaling.is_cuda = true ∧ scaling.contig = true)) ∧
    (∀ data offset offset' scaling c2w : Tensor,
        grid_weight_render_checks data offset scaling c2w =
        grid_weight_render_checks data offset' scaling c2w) ∧
    (∀ data child extra_data offset scaling c2w weight_accum : Tensor,
        (runOp (volume_render_image_checks data child extra_data offset
          scaling c2w weight_accum)).2 = true →
        (data.is_cuda = true ∧ data.contig = true) ∧
        (child.is_cuda = true ∧ child.contig = true) ∧
        (extra_data.is_cuda = true ∧ extra_data.contig = true) ∧
        (c2w.is_cuda = true ∧ c2w.contig = true) ∧
        (scaling.is_cuda = true ∧ scaling.contig = true)) ∧
    (∀ data child extra_data offset offset' scaling c2w weight_accum
        weight_accum' : Tensor,
        volume_render_image_checks data child extra_data offset scaling
          c2w weight_accum =
        volume_render_image_checks data child extra_data offset' scaling
          c2w weight_accum') ∧
    (∀ data child extra_data grad_output offset scaling c2w : Tensor,
        (runOp (volume_render_image_backward_checks data child extra_data
          grad_output offset scaling c2w)).2 = true →
        (data.is_cuda = true ∧ data.contig = true) ∧
        (child.is_cuda = true ∧ child.contig = true) ∧
        (extra_data.is_cuda = true ∧ extra_data.contig = true) ∧
        (grad_output.is_cuda = true ∧ grad_output.contig = true) ∧
        (c2w.is_cuda = true ∧ c2w.contig = true) ∧
        (scaling.is_cuda = true ∧ scaling.contig = true)) ∧
    (∀ data child extra_data grad_output offset offset' scaling
        c2w : Tensor,
        volume_render_image_backward_checks data child extra_data
          grad_output offset scaling c2w =
        volume_render_image_backward_checks data child extra_data
          grad_output offset' scaling c2w) := by
  refine ⟨?_, fun _ _ _ _ _ _ _ _ _ _ => rfl, ?_,
    fun _ _ _ _ _ => rfl, ?_, fun _ _ _ _ _ _ _ _ _ => rfl, ?_,
    fun _ _ _ _ _ _ _ _ => rfl⟩
  · intro data child extra_data origins dirs vdirs offset scaling
      weight_accum h
    rw [runOp_snd] at h
    simp [volume_render_checks, checkInput] at h
    tauto
  · intro data offset scaling c2w h
    rw [runOp_snd] at h
    simp [grid_weight_render_checks, checkInput] at h
    tauto
  · intro data child extra_data offset scaling c2w weight_accum h
    rw [runOp_snd] at h
    simp [volume_render_image_checks, checkInput] at h
    tauto
  · intro data child extra_data grad_output offset scaling c2w h
    rw [runOp_snd] at h
    simp [volume_render_image_backward_checks, checkInput] at h
    tauto

/-- Witness for the amended C6 at concrete inputs: a successful
`grid_weight_render` call certifies its three checked tensors. -/
theorem validated_tensor_sets_witness :
    ((gpuF32 [2, 2, 2]).is_cuda = true ∧
      (gpuF32 [2, 2, 2]).contig = true) ∧
    ((gpuF32 [3, 4]).is_cuda = true ∧ (gpuF32 [3, 4]).contig = true) ∧
    ((gpuF32 [3]).is_cuda = true ∧ (gpuF32 [3]).contig = true) :=
  validated_tensor_sets.2.2.1 (gpuF32 [2, 2, 2])
    (Tensor.mk false false [3] Dtype.float32) (gpuF32 [3])
    (gpuF32 [3, 4]) (by decide)

/-! ## Traversal and assignment lemmas for the vertical engine -/

/-- Traversal is a pure function of branching factor and child array:
payload content never influences the resolved leaf. -/
theorem traverse_congr (t t' : Octree) (hN : t'.N = t.N)
    (hc : t'.child = t.child) :
    ∀ fuel b p, traverse t' fuel b p = traverse t fuel b p := by
  intro fuel
  induction fuel with
  | zero => intro b p; rfl
  | succ n ih =>
    intro b p
    simp only [traverse, hN, hc]
    split
    · rfl
    · exact ih _ _

theorem assign1_child (t : Octree) (off sc : V3) (fuel : ℕ) (q : V3)
    (v : List ℚ) : (assign1 t off sc fuel q v).child = t.child := by
  unfold assign1
  split <;> rfl

theorem assign1_N (t : Octree) (off sc : V3) (fuel : ℕ) (q : V3)
    (v : List ℚ) : (assign1 t off sc fuel q v).N = t.N := by
  unfold assign1
  split <;> rfl

/-- Assigning payload never changes how any point traverses the tree. -/
theorem traverse_assign1 (t : Octree) (off sc : V3) (fuel' : ℕ) (q : V3)
    (v : List ℚ) (fuel b : ℕ) (p : V3) :
    traverse (assign1 t off sc fuel' q v) fuel b p =
      traverse t fuel b p :=
  traverse_congr t _ (assign1_N t off sc fuel' q v)
    (assign1_child t off sc fuel' q v) fuel b p

/-- A resolved assignment stores its row at the resolved cell. -/
theorem dataAt_assign1_self (t : Octree) (off sc : V3) (fuel : ℕ) (q : V3)
    (v : List ℚ) (c : ℕ × ℕ × ℕ × ℕ)
    (h : traverse t fuel 0 (transformPoint off sc q) = some c) :
    dataAt (assign1 t off sc fuel q v) c = v := by
  obtain ⟨b, i, j, k⟩ := c
  unfold assign1
  rw [h]
  simp [dataAt]

/-- A resolved assignment leaves every other cell's row unchanged. -/
theorem dataAt_assign1_other (t : Octree) (off sc : V3) (fuel : ℕ)
    (q : V3) (v : List ℚ) (c : ℕ × ℕ × ℕ × ℕ)
    (h : traverse t fuel 0 (transformPoint off sc q) ≠ some c) :
    dataAt (assign1 t off sc fuel q v) c = dataAt t c := by
  obtain ⟨b, i, j, k⟩ := c
  unfold assign1
  cases hq : traverse t fuel 0 (transformPoint off sc q) with
  | none => rfl
  | some c' =>
    obtain ⟨b', i', j', k'⟩ := c'
    rw [hq] at h
    have hne : ¬(b = b' ∧ i = i' ∧ j = j' ∧ k = k') := by
      intro hcon
      exact h (by simp [hcon.1, hcon.2.1, hcon.2.2.1, hcon.2.2.2])
    simp [dataAt, hne]

theorem assign_vertical_cons (t : Octree) (off sc : V3) (fuel : ℕ)
    (pv : V3 × List ℚ) (rest : List (V3 × List ℚ)) :
    assign_vertical t off sc fuel (pv :: rest) =
      assign_vertical (assign1 t off sc fuel pv.1 pv.2) off sc fuel
        rest := rfl

theorem assign_vertical_append (t : Octree) (off sc : V3) (fuel : ℕ)
    (l1 l2 : List (V3 × List ℚ)) :
    assign_vertical t off sc fuel (l1 ++ l2) =
      assign_vertical (assign_vertical t off sc fuel l1) off sc fuel
        l2 := by
  simp [assign_vertical, List.foldl_append]

theorem assign_vertical_child (t : Octree) (off sc : V3) (fuel : ℕ)
    (qvs : List (V3 × List ℚ)) :
    (assign_vertical t off sc fuel qvs).child = t.child := by
  induction qvs generalizing t with
  | nil => rfl
  | cons pv rest ih =>
    rw [assign_vertical_cons, ih, assign1_child]

theorem assign_vertical_N (t : Octree) (off sc : V3) (fuel : ℕ)
    (qvs : List (V3 × List ℚ)) :
    (assign_vertical t off sc fuel qvs).N = t.N := by
  induction qvs generalizing t with
  | nil => rfl
  | cons pv rest ih =>
    rw [assign_vertical_cons, ih, assign1_N]

/-- A whole assignment batch never changes how any point traverses. -/
theorem traverse_assign_vertical (t : Octree) (off sc : V3) (fuel' : ℕ)
    (qvs : List (V3 × List ℚ)) (fuel b : ℕ) (p : V3) :
    traverse (assign_vertical t off sc fuel' qvs) fuel b p =
      traverse t fuel b p :=
  traverse_congr t _ (assign_vertical_N t off sc fuel' qvs)
    (assign_vertical_child t off sc fuel' qvs) fuel b p

/-- A batch none of whose points resolves to cell `c` leaves the row at
`c` unchanged. -/
theorem dataAt_assign_vertical_miss (off sc : V3) (fuel : ℕ)
    (qvs : List (V3 × List ℚ)) (t : Octree) (c : ℕ × ℕ × ℕ × ℕ)
    (h : ∀ pv ∈ qvs,
      traverse t fuel 0 (transformPoint off sc pv.1) ≠ some c) :
    dataAt (assign_vertical t off sc fuel qvs) c = dataAt t c := by
  induction qvs generalizing t with
  | nil => rfl
  | cons pv rest ih =>
    rw [assign_vertical_cons]
    rw [ih (assign1 t off sc fuel pv.1 pv.2)]
    · exact dataAt_assign1_other t off sc fuel pv.1 pv.2 c
        (h pv (List.mem_cons_self pv rest))
    · intro pv' hpv'
      rw [traverse_assign1]
      exact h pv' (List.mem_cons_of_mem pv hpv')

/-- After an assignment batch, a cell written by some pair and by no later
pair holds exactly that pair's row. -/
theorem dataAt_assign_vertical_hit (off sc : V3) (fuel : ℕ) (t : Octree)
    (l1 l2 : List (V3 × List ℚ)) (q : V3) (v : List ℚ)
    (c : ℕ × ℕ × ℕ × ℕ)
    (hq : traverse t fuel 0 (transformPoint off sc q) = some c)
    (h2 : ∀ pv ∈ l2,
      traverse t fuel 0 (transformPoint off sc pv.1) ≠ some c) :
    dataAt (assign_vertical t off sc fuel (l1 ++ (q, v) :: l2)) c = v := by
  rw [assign_vertical_append, assign_vertical_cons]
  have htrav : ∀ fuel' b p,
      traverse (assign1 (assign_vertical t off sc fuel l1) off sc fuel q
        v) fuel' b p = traverse t fuel' b p := by
    intro fuel' b p
    rw [traverse_assign1, traverse_assign_vertical]
  rw [dataAt_assign_vertical_miss off sc fuel l2 _ c]
  · rw [dataAt_assign1_self]
    rw [traverse_assign_vertical]
    exact hq
  · intro pv hpv
    rw [htrav]
    exact h2 pv hpv

/-- C1: round trip of the vertical engine — running `assign_vertical` on a
batch containing `(p, v)` and then `query_vertical` at the same `p`
returns exactly `v`, provided `p` is the only point of the batch resolving
to its leaf cell and the tree is otherwise unchanged between the calls. -/
theorem query_assign_round_trip (t : Octree) (off sc : V3) (fuel : ℕ)
    (qvs : List (V3 × List ℚ)) (i : ℕ) (hi : i < qvs.length)
    (c : ℕ × ℕ × ℕ × ℕ)
    (hres : traverse t fuel 0 (transformPoint off sc qvs[i].1) = some c)
    (hsole : ∀ j (hj : j < qvs.length), j ≠ i →
      traverse t fuel 0 (transformPoint off sc qvs[j].1) ≠ some c) :
    (query_vertical (assign_vertical t off sc fuel qvs) off sc fuel
      (qvs.map Prod.fst))[i]? = some (some qvs[i].2) := by
  have hkey : dataAt (assign_vertical t off sc fuel qvs) c =
      qvs[i].2 := by
    conv_lhs => rw [← List.take_append_drop i qvs,
      List.drop_eq_getElem_cons hi]
    have hmiss : ∀ pv ∈ qvs.drop (i + 1),
        traverse t fuel 0 (transformPoint off sc pv.1) ≠ some c := by
      intro pv hpv
      obtain ⟨j, hj, hpj⟩ := List.mem_iff_getElem.mp hpv
      have hlen : i + 1 + j < qvs.length := by
        have := qvs.length_drop (i + 1)
        omega
      have hget : pv = qvs[i + 1 + j] := by
        rw [← hpj, List.getElem_drop]
      rw [hget]
      exact hsole (i + 1 + j) hlen (by omega)
    exact dataAt_assign_vertical_hit off sc fuel t (qvs.take i)
      (qvs.drop (i + 1)) qvs[i].1 qvs[i].2 c hres hmiss
  rw [query_vertical, List.getElem?_map, List.getElem?_map,
    List.getElem?_eq_getElem hi]
  simp only [Option.map_some']
  rw [query1, traverse_assign_vertical, hres]
  simp only [Option.map_some']
  exact congrArg (fun r => some (some r)) hkey

/-- Identifies the model's rational floor with the mathematical floor. -/
theorem rat_floor_intFloor (q : ℚ) : Rat.floor q = ⌊q⌋ := by
  rw [Rat.floor_def', Rat.floor_def]

/-- Evaluates the clamped cell coordinate of the witness point. -/
theorem cellIndex_two_nine_tenths : cellIndex 2 ((9 : ℚ)/10) = 1 := by
  unfold cellIndex
  rw [rat_floor_intFloor]
  norm_num

/-- Witness for C1 on the spec's concrete scenario: assigning the row
`[7]` at the point `(9/10, 9/10, 9/10)` (the sole batch entry) and
querying the same point returns `[7]`. -/
theorem query_assign_round_trip_witness :
    traverse specTree 2 0 (transformPoint ⟨0, 0, 0⟩ ⟨1, 1, 1⟩
      ⟨9/10, 9/10, 9/10⟩) = some (0, 1, 1, 1) ∧
    (query_vertical (assign_vertical specTree ⟨0, 0, 0⟩ ⟨1, 1, 1⟩ 2
        [(⟨9/10, 9/10, 9/10⟩, [7])]) ⟨0, 0, 0⟩ ⟨1, 1, 1⟩ 2
      ([((⟨9/10, 9/10, 9/10⟩ : V3), ([7] : List ℚ))].map
        Prod.fst))[0]? = some (some [7]) := by
  have hp : transformPoint ⟨0, 0, 0⟩ ⟨1, 1, 1⟩
      (⟨9/10, 9/10, 9/10⟩ : V3) = ⟨9/10, 9/10, 9/10⟩ := by
    simp [transformPoint]
  have ht : traverse specTree 2 0 (transformPoint ⟨0, 0, 0⟩ ⟨1, 1, 1⟩
      ⟨9/10, 9/10, 9/10⟩) = some (0, 1, 1, 1) := by
    rw [hp]
    simp [traverse, specTree, cellIndex_two_nine_tenths]
  refine ⟨ht, ?_⟩
  exact query_assign_round_trip specTree ⟨0, 0, 0⟩ ⟨1, 1, 1⟩ 2
    [(⟨9/10, 9/10, 9/10⟩, [7])] 0 (by decide) (0, 1, 1, 1) ht
    (by intro j hj hne; simp at hj; omega)

/-! ## Renderer lemmas -/

/-- Through zero-density samples the march leaves `(out, T = 1)` intact
and finishes on the background term. -/
theorem renderGo_zero_sigma (fast : Bool) (stepSz bg : ℝ)
    (samples : List (ℝ × ℝ)) (out : ℝ)
    (h : ∀ s ∈ samples, s.1 = 0) :
    renderGo fast stepSz bg samples (out, 1) = out + bg := by
  induction samples generalizing out with
  | nil => simp [renderGo]
  | cons s rest ih =>
    rw [renderGo, if_neg]
    · have hs : s.1 = 0 := h s (List.mem_cons_self s rest)
      have hacc : compositeStep stepSz (out, 1) s = (out, 1) := by
        simp [compositeStep, hs, Real.exp_zero]
      rw [hacc]
      exact ih out fun s' hs' => h s' (List.mem_cons_of_mem s hs')
    · rintro ⟨-, hlt⟩
      norm_num at hlt

/-- The running transmittance stays nonnegative along any march. -/
theorem foldl_compositeStep_snd_nonneg (stepSz : ℝ) (l : List (ℝ × ℝ))
    (acc : ℝ × ℝ) (h : 0 ≤ acc.2) :
    0 ≤ (l.foldl (compositeStep stepSz) acc).2 := by
  induction l generalizing acc with
  | nil => exact h
  | cons s rest ih =>
    rw [List.foldl_cons]
    exact ih _ (mul_nonneg h (Real.exp_pos _).le)

/-- C2: background fallback — a ray whose march encounters only
zero-density cells returns exactly the background brightness, in either
exact or early-exit mode and for any step size. -/
theorem volume_render_background_fallback (fast : Bool) (stepSz bg : ℝ)
    (samples : List (ℝ × ℝ)) (h : ∀ s ∈ samples, s.1 = 0) :
    volume_render_ray fast stepSz bg samples = bg := by
  rw [volume_render_ray, renderGo_zero_sigma fast stepSz bg samples 0 h]
  ring

/-- Witness for C2 at concrete inputs: two zero-density samples with
background brightness 7/10 render to exactly 7/10, early exit enabled. -/
theorem volume_render_background_fallback_witness :
    (∀ s ∈ [((0 : ℝ), (1 : ℝ)/2), ((0 : ℝ), (3 : ℝ)/10)], s.1 = 0) ∧
    volume_render_ray true 1 (7/10)
      [((0 : ℝ), (1 : ℝ)/2), ((0 : ℝ), (3 : ℝ)/10)] = 7/10 :=
  ⟨by simp, volume_render_background_fallback true 1 (7/10) _ (by simp)⟩

/-- C3: monotonic transmittance — along any marched ray with nonnegative
densities and step size, the transmittance after each step is at most the
transmittance before it (each step multiplies it by
`1 − alpha = exp(−σ·step) ∈ [0, 1]`). -/
theorem transmittance_monotone (stepSz : ℝ) (samples : List (ℝ × ℝ))
    (n : ℕ) (hstep : 0 ≤ stepSz) (hd : ∀ s ∈ samples, 0 ≤ s.1) :
    (marchState stepSz (samples.take (n + 1))).2 ≤
      (marchState stepSz (samples.take n)).2 := by
  by_cases hn : n < samples.length
  · have htake : samples.take (n + 1) =
        samples.take n ++ [samples[n]] := by
      rw [List.take_succ, List.getElem?_eq_getElem hn]
      rfl
    rw [htake, marchState, List.foldl_append, List.foldl_cons,
      List.foldl_nil, ← marchState]
    have hT : 0 ≤ (marchState stepSz (samples.take n)).2 :=
      foldl_compositeStep_snd_nonneg stepSz _ _ (by norm_num)
    have hσ : 0 ≤ (samples[n].1) * stepSz :=
      mul_nonneg (hd _ (samples.getElem_mem hn)) hstep
    have hexp : Real.exp (-(samples[n].1 * stepSz)) ≤ 1 := by
      rw [Real.exp_le_one_iff]
      linarith
    calc (compositeStep stepSz (marchState stepSz (samples.take n))
            samples[n]).2
        = (marchState stepSz (samples.take n)).2 *
            Real.exp (-(samples[n].1 * stepSz)) := rfl
      _ ≤ (marchState stepSz (samples.take n)).2 * 1 := by
            exact mul_le_mul_of_nonneg_left hexp hT
      _ = (marchState stepSz (samples.take n)).2 := mul_one _
  · have hlen : samples.length ≤ n := Nat.le_of_not_lt hn
    rw [List.take_of_length_le hlen,
      List.take_of_length_le (Nat.le_succ_of_le hlen)]

/-- Witness for C3 at concrete inputs: one sample of density 1 at step
size 1 — the transmittance after the step is at most the initial one. -/
theorem transmittance_monotone_witness :
    (0 : ℝ) ≤ 1 ∧ (∀ s ∈ [((1 : ℝ), (0 : ℝ))], 0 ≤ s.1) ∧
    (marchState 1 ([((1 : ℝ), (0 : ℝ))].take 1)).2 ≤
      (marchState 1 ([((1 : ℝ), (0 : ℝ))].take 0)).2 :=
  ⟨by norm_num, by simp,
   transmittance_monotone 1 [((1 : ℝ), (0 : ℝ))] 0 (by norm_num)
     (by simp)⟩

end Svox
